import Mathlib

/-!
Shallow embedding of the reconciliation core in `rollout/context.go` of the
argo-rollouts fork, together with the rollback-window evaluator documented in
`docs/features/rollback.md`.

Go maps are modelled extensionally as functions `String → Option String`; a
`range` loop that copies every key satisfying a predicate is modelled by its
(order-independent) denotation `copyMatched`.  Methods on `rolloutContext`
become functions from the context value to an updated context value.
-/

namespace ArgoRollouts

/-- A Go `map[string]string`, modelled extensionally. -/
def StrMap := String → Option String

/-- The empty map (`make(map[string]string)`). -/
def StrMap.empty : StrMap := fun _ => none

/-- Map update `m[k] = v`. -/
def StrMap.insert (m : StrMap) (k v : String) : StrMap :=
  fun q => if q = k then some v else m q

/-- Map lookup `m[k]` (missing key yields `none`, the Go zero value plus
`found = false`). -/
def StrMap.get (m : StrMap) (k : String) : Option String := m k

/-- Denotation of the Go loop
`for key, value := range src { if pred key { dst[key] = value } }`:
every key of `src` satisfying `pred` is copied over `dst`.  Each key is
written at most once, so the result does not depend on iteration order. -/
def copyMatched (pred : String → Bool) (src dst : StrMap) : StrMap :=
  fun k => match src k with
    | some v => if pred k then some v else dst k
    | none => dst k

/-- Denotation of the Go pattern
`if _, found := m[k0]; found { patch[k0] = m[k0] }` applied to a freshly made
empty map: a map holding at most the single entry `k0 ↦ m[k0]`. -/
def presentEntry (m : StrMap) (k0 : String) : StrMap :=
  match m k0 with
  | some v => StrMap.empty.insert k0 v
  | none => StrMap.empty

/-- Checks whether `p` is a leading substring of `s` (Go `strings.HasPrefix`). -/
def strHasPfx (p s : String) : Bool := p.data.isPrefixOf s.data

/-- Modelled from the spec: the constant `v1alpha1.DefaultRolloutUniqueLabelKey`
(the unique-template-hash selector/label key of the spec) is declared outside
`src/`; its value is the well-known upstream argo-rollouts value. -/
def DefaultRolloutUniqueLabelKey : String := "rollouts-pod-template-hash"

/-- Modelled from the spec: the constant
`v1alpha1.DefaultReplicaSetScaleDownDeadlineAnnotationKey` is declared outside
`src/`; its value is the well-known upstream argo-rollouts value. -/
def DefaultReplicaSetScaleDownDeadlineKey : String := "scale-down-deadline"

/-- Modelled from the spec: the constant `annotations.RolloutLabel` (first of
the fixed controller-owned key prefixes) is declared outside `src/`; its value
is the well-known upstream argo-rollouts value. -/
def RolloutLabel : String := "rollout.argoproj.io"

/-- Modelled from the spec: the constant `v1alpha1.ReplicaSetFinalStatusKey`
(the spec's "well-known final-status annotation key") is declared outside
`src/`; modelled as a key under the controller-owned prefix. -/
def ReplicaSetFinalStatusKey : String := "rollout.argoproj.io/final-status"

/-- The fixed controller-owned key prefixes tested in `generateBasePatch`:
`annotations.RolloutLabel`, `"argo-rollouts.argoproj.io"` and
`"experiment.argoproj.io"`. -/
def isControllerKey (k : String) : Bool :=
  strHasPfx RolloutLabel k
    || strHasPfx "argo-rollouts.argoproj.io" k
    || strHasPfx "experiment.argoproj.io" k

/-- The fields of `appsv1.ReplicaSet` read or written by `rollout/context.go`:
object meta name/namespace/labels/annotations, `Spec.Replicas`,
`Spec.Template` labels/annotations, and `Spec.Selector.MatchLabels`
(the Go code dereferences the selector pointer unconditionally, so it is
modelled as a plain map). -/
structure ReplicaSet where
  name : String
  nsName : String
  labels : StrMap
  annots : StrMap
  replicas : Option Int
  templateLabels : StrMap
  templateAnnots : StrMap
  selectorMatchLabels : StrMap

/-- Embedding of `generateBasePatch` (context.go lines 178-219): start from a
zero-valued ReplicaSet, copy replica count and template labels/annotations,
then copy the hash label, the scale-down-deadline annotation entry and the
hash selector entry when present on the live object, then copy every label and
annotation key matched by the fixed controller-owned prefixes. -/
def generateBasePatch (rs : ReplicaSet) : ReplicaSet :=
  let lab1 : StrMap := presentEntry rs.labels DefaultRolloutUniqueLabelKey
  let ann1 : StrMap := presentEntry rs.annots DefaultReplicaSetScaleDownDeadlineKey
  let sel1 : StrMap := presentEntry rs.selectorMatchLabels DefaultRolloutUniqueLabelKey
  { name := ""
    nsName := ""
    labels := copyMatched isControllerKey rs.labels lab1
    annots := copyMatched isControllerKey rs.annots ann1
    replicas := rs.replicas
    templateLabels := rs.templateLabels
    templateAnnots := rs.templateAnnots
    selectorMatchLabels := sel1 }

/-- Embedding of `generateRSFinalStatusPatch` (context.go lines 221-225):
the base patch of the new ReplicaSet with the final-status annotation set to
the caller-supplied string. -/
def generateRSFinalStatusPatch (newRS : ReplicaSet) (status : String) : ReplicaSet :=
  let patch := generateBasePatch newRS
  { patch with annots := patch.annots.insert ReplicaSetFinalStatusKey status }

/-- One `v1alpha1.PauseCondition`: a reason with its start time. -/
structure PauseCondition where
  reason : String
  startTime : Int
deriving DecidableEq

/-- Modelled from the spec: the constant
`v1alpha1.PauseReasonInconclusiveAnalysis` is declared outside `src/`; it is
the reason tag of the inconclusive-analysis pause condition. -/
def PauseReasonInconclusiveAnalysis : String := "InconclusiveAnalysisRun"

/-- Status `{name, phase, message}` of one analysis run as projected into
rollout status (`v1alpha1.RolloutAnalysisRunStatus`). -/
structure RolloutAnalysisRunStatus where
  name : String
  status : String
  message : String
deriving DecidableEq

/-- The canary part of rollout status touched by `rollout/context.go`. -/
structure CanaryStatus where
  currentBackgroundAnalysisRunStatus : Option RolloutAnalysisRunStatus
  currentStepAnalysisRunStatus : Option RolloutAnalysisRunStatus
  currentExperiment : String
  currentStepIndex : Option Int
deriving DecidableEq

/-- The blue-green part of rollout status touched by `rollout/context.go`. -/
structure BlueGreenStatus where
  prePromotionAnalysisRunStatus : Option RolloutAnalysisRunStatus
  postPromotionAnalysisRunStatus : Option RolloutAnalysisRunStatus
deriving DecidableEq

/-- The rollout status fields read or written by `rollout/context.go`. -/
structure RolloutStatus where
  pauseConditions : List PauseCondition
  canary : CanaryStatus
  blueGreen : BlueGreenStatus
  restartedAt : Option Int
deriving DecidableEq

/-- The rollout spec fields read by `rollout/context.go`:
`Spec.Paused`, which of `Spec.Strategy.{Canary,BlueGreen}` is non-nil, and
`Spec.RestartAt`. -/
structure RolloutSpec where
  paused : Bool
  strategyCanary : Bool
  strategyBlueGreen : Bool
  restartAt : Option Int
deriving DecidableEq

/-- A `v1alpha1.Rollout`: spec plus status. -/
structure Rollout where
  spec : RolloutSpec
  status : RolloutStatus
deriving DecidableEq

/-- Phase and message of an analysis run (`v1alpha1.AnalysisRunStatus`). -/
structure AnalysisRunStatus where
  phase : String
  message : String
deriving DecidableEq

/-- A `v1alpha1.AnalysisRun`: identity plus status. -/
structure AnalysisRun where
  name : String
  status : AnalysisRunStatus
deriving DecidableEq

/-- `analysisutil.CurrentAnalysisRuns`: the selected current analysis run per
trigger-kind slot; each slot is a nilable pointer. -/
structure CurrentAnalysisRuns where
  canaryBackground : Option AnalysisRun
  canaryStep : Option AnalysisRun
  blueGreenPrePromotion : Option AnalysisRun
  blueGreenPostPromotion : Option AnalysisRun
deriving DecidableEq

/-- A `v1alpha1.Experiment`; only its identity is read by `context.go`. -/
structure Experiment where
  name : String
deriving DecidableEq

/-- The fields of `rolloutContext` read or written by the functions under
verification.  The new ReplicaSet pointer is nilable. -/
structure RolloutCtx where
  rollout : Rollout
  newRS : Option ReplicaSet
  currentArs : CurrentAnalysisRuns
  otherArs : List AnalysisRun
  currentEx : Option Experiment
  otherExs : List Experiment
  newStatus : RolloutStatus

/-- Modelled from the spec: `getPauseCondition` is called by `haltProgress`
but declared outside `src/`.  Per the spec the pause state machine keeps "a
set of active (reason, timestamp) pairs"; the query returns the active pause
condition with the given reason, when present. -/
def getPauseCondition (r : Rollout) (reason : String) : Option PauseCondition :=
  r.status.pauseConditions.find? (fun pc => pc.reason == reason)

/-- Embedding of `haltProgress` (context.go lines 142-150).  The Go receiver
is threaded through explicitly: the method returns the reason string together
with the (unchanged) context, so that the frame property is a statement, not
a modelling assumption baked in elsewhere. -/
def haltProgress (c : RolloutCtx) : String × RolloutCtx :=
  if c.rollout.spec.paused then
    ("user paused", c)
  else if (getPauseCondition c.rollout PauseReasonInconclusiveAnalysis).isSome then
    ("inconclusive analysis", c)
  else
    ("", c)

/-- Denotation of the rescue loop in `SetCurrentExperiment`: remove the first
list entry with the given name, if any (the loop breaks after the first
match). -/
def removeFirstByName (n : String) : List Experiment → List Experiment
  | [] => []
  | e :: rest => if e.name = n then rest else e :: removeFirstByName n rest

/-- Embedding of `SetCurrentExperiment` (context.go lines 87-97): record the
experiment as current, surface its name in canary status, and rescue it from
the pending-deletion list by removing the first entry with the same name. -/
def SetCurrentExperiment (c : RolloutCtx) (ex : Experiment) : RolloutCtx :=
  { c with
    currentEx := some ex
    newStatus := { c.newStatus with
      canary := { c.newStatus.canary with currentExperiment := ex.name } }
    otherExs := removeFirstByName ex.name c.otherExs }

/-- Embedding of `SetCurrentAnalysisRuns` (context.go lines 99-137): record
the supplied current-run set, then project name/phase/message of each non-nil
slot of the configured strategy into the matching status sub-field. -/
def SetCurrentAnalysisRuns (c : RolloutCtx) (currARs : CurrentAnalysisRuns) : RolloutCtx :=
  let c0 := { c with currentArs := currARs }
  if c0.rollout.spec.strategyCanary then
    let s1 :=
      match currARs.canaryBackground with
      | some ar =>
        { c0.newStatus with canary := { c0.newStatus.canary with
            currentBackgroundAnalysisRunStatus :=
              some ⟨ar.name, ar.status.phase, ar.status.message⟩ } }
      | none => c0.newStatus
    let s2 :=
      match currARs.canaryStep with
      | some ar =>
        { s1 with canary := { s1.canary with
            currentStepAnalysisRunStatus :=
              some ⟨ar.name, ar.status.phase, ar.status.message⟩ } }
      | none => s1
    { c0 with newStatus := s2 }
  else if c0.rollout.spec.strategyBlueGreen then
    let s1 :=
      match currARs.blueGreenPrePromotion with
      | some ar =>
        { c0.newStatus with blueGreen := { c0.newStatus.blueGreen with
            prePromotionAnalysisRunStatus :=
              some ⟨ar.name, ar.status.phase, ar.status.message⟩ } }
      | none => c0.newStatus
    let s2 :=
      match currARs.blueGreenPostPromotion with
      | some ar =>
        { s1 with blueGreen := { s1.blueGreen with
            postPromotionAnalysisRunStatus :=
              some ⟨ar.name, ar.status.phase, ar.status.message⟩ } }
      | none => s1
    { c0 with newStatus := s2 }
  else
    c0

/-- The collaborators invoked by `reconcile`.  `checkPausedConditions`,
`isScalingEvent`, `syncReplicasOnly`, `rolloutBlueGreen` and `rolloutCanary`
are declared outside `src/`, so the dispatcher is embedded parametrically over
them: each is a state transformer on the context that can fail, and
`isScalingEvent` additionally produces its boolean verdict. -/
structure Reconciler where
  checkPausedConditions : RolloutCtx → Except String RolloutCtx
  isScalingEvent : RolloutCtx → Except String (Bool × RolloutCtx)
  syncReplicasOnly : RolloutCtx → Except String RolloutCtx
  rolloutBlueGreen : RolloutCtx → Except String RolloutCtx
  rolloutCanary : RolloutCtx → Except String RolloutCtx

/-- Embedding of `reconcile` (context.go lines 60-81): check paused
conditions, detect a scaling event and short-circuit to `syncReplicasOnly`,
otherwise dispatch on the configured strategy (blue-green, else canary). -/
def reconcile (R : Reconciler) (c : RolloutCtx) : Except String RolloutCtx :=
  match R.checkPausedConditions c with
  | .error e => .error e
  | .ok c1 =>
    match R.isScalingEvent c1 with
    | .error e => .error e
    | .ok (isScaling, c2) =>
      if isScaling then
        R.syncReplicasOnly c2
      else if c2.rollout.spec.strategyBlueGreen then
        R.rolloutBlueGreen c2
      else
        R.rolloutCanary c2

/-- Modelled from the spec: `syncReplicasOnly` (the Scaling Synchronizer) is
declared outside `src/`.  Per the spec it handles "a replica-count change on
an existing, spec-matching replica set", "skipping pause/analysis/step logic
entirely": it adjusts the replica count of the new ReplicaSet to the desired
value and leaves every other context field — in particular pause conditions,
analysis sub-status and the step index — unchanged. -/
def specSyncReplicasOnly (desired : Int) (c : RolloutCtx) : Except String RolloutCtx :=
  .ok { c with newRS := c.newRS.map (fun rs => { rs with replicas := some desired }) }

/-- The errors of `setFinalRSStatus`: each of the three `fmt.Errorf` sites
formats a fixed message around the new ReplicaSet name and wraps the inner
error. -/
inductive FinalRSError where
  | errCreatingPatch (rsName : String) (inner : String)
  | errPatching (rsName : String) (inner : String)
  | errUpdatingInformer (rsName : String) (inner : String)
deriving DecidableEq

/-- The ReplicaSet identity carried by a `setFinalRSStatus` error. -/
def FinalRSError.rsName : FinalRSError → String
  | .errCreatingPatch n _ => n
  | .errPatching n _ => n
  | .errUpdatingInformer n _ => n

/-- The external collaborators of `setFinalRSStatus`:
`diff.CreateTwoWayMergePatch` (a function of the patch object), the store's
`Patch` endpoint and the informer indexer `Update`, the latter two indexed by
call number so that the number of calls the code makes is observable. -/
structure KubeWorld where
  createPatchResult : ReplicaSet → Except String String
  patchResult : Nat → Except String ReplicaSet
  informerResult : Nat → Except String Unit

/-- The observable state threaded through `setFinalRSStatus`: how many store
patch calls and informer updates have happened, and the informer cache entry
for the patched ReplicaSet. -/
structure KubeState where
  patchCalls : Nat
  informerCalls : Nat
  cache : Option ReplicaSet

/-- Embedding of `setFinalRSStatus` (context.go lines 152-176): build the
final-status patch, serialize it, send one patch request to the store, and on
success update the local informer cache with the object the store returned.
Every failure is returned immediately, wrapped with the new ReplicaSet's
name; no operation is retried. -/
def setFinalRSStatus (w : KubeWorld) (newRS : ReplicaSet) (status : String)
    (st : KubeState) : Except FinalRSError Unit × KubeState :=
  let patchWithRSFinalStatus := generateRSFinalStatusPatch newRS status
  match w.createPatchResult patchWithRSFinalStatus with
  | .error e => (.error (.errCreatingPatch newRS.name e), st)
  | .ok _ =>
    match w.patchResult st.patchCalls with
    | .error e =>
      (.error (.errPatching newRS.name e), { st with patchCalls := st.patchCalls + 1 })
    | .ok updatedRS =>
      let st1 := { st with patchCalls := st.patchCalls + 1 }
      match w.informerResult st1.informerCalls with
      | .error e =>
        (.error (.errUpdatingInformer newRS.name e),
          { st1 with informerCalls := st1.informerCalls + 1 })
      | .ok _ =>
        (.ok (),
          { st1 with informerCalls := st1.informerCalls + 1, cache := some updatedRS })

/-- One revision of a rollout's history, as the rollback documentation
describes it: its revision number, whether its ReplicaSet still exists, and
whether it carries a historical abort marker. -/
structure RevisionInfo where
  revision : Int
  present : Bool
  aborted : Bool
deriving DecidableEq

/-- Modelled from the spec: the Rollback-Window Evaluator is documented in
`docs/features/rollback.md` but implemented outside `src/`.  Per the doc, the
window is the fixed set of revisions at distance `1..N` behind the current
revision ("the window is not dynamic"), and ReplicaSets that no longer exist
or carry an abort marker "are simply filtered from the already calculated
window". -/
def rollbackEligible (hist : List RevisionInfo) (current window target : Int) : Bool :=
  (decide (1 ≤ current - target) && decide (current - target ≤ window))
    && hist.any (fun ri => ri.revision == target && ri.present && !ri.aborted)

/-! Concrete sample objects used by witnesses and counterexamples. -/

/-- A plain ReplicaSet with no labels or annotations. -/
def rsW : ReplicaSet :=
  { name := "guestbook-abc123"
    nsName := "default"
    labels := StrMap.empty
    annots := StrMap.empty
    replicas := some 1
    templateLabels := StrMap.empty
    templateAnnots := StrMap.empty
    selectorMatchLabels := StrMap.empty }

/-- A ReplicaSet carrying only the scale-down-deadline annotation. -/
def rsC4 : ReplicaSet :=
  { rsW with annots := StrMap.empty.insert DefaultReplicaSetScaleDownDeadlineKey "2025-01-01" }

/-- An empty rollout status value. -/
def statusW : RolloutStatus :=
  { pauseConditions := []
    canary :=
      { currentBackgroundAnalysisRunStatus := none
        currentStepAnalysisRunStatus := none
        currentExperiment := ""
        currentStepIndex := none }
    blueGreen :=
      { prePromotionAnalysisRunStatus := none
        postPromotionAnalysisRunStatus := none }
    restartedAt := none }

/-- A canary-strategy rollout spec, not user-paused. -/
def specCanaryW : RolloutSpec :=
  { paused := false, strategyCanary := true, strategyBlueGreen := false, restartAt := none }

/-- Build a context from a rollout, a delete-candidate analysis-run list and a
delete-candidate experiment list. -/
def mkCtx (r : Rollout) (oArs : List AnalysisRun) (oExs : List Experiment) : RolloutCtx :=
  { rollout := r
    newRS := none
    currentArs := ⟨none, none, none, none⟩
    otherArs := oArs
    currentEx := none
    otherExs := oExs
    newStatus := statusW }

/-- A context whose rollout is user-paused while an inconclusive-analysis
pause condition is simultaneously active. -/
def ctxUserPaused : RolloutCtx :=
  mkCtx
    { spec := { specCanaryW with paused := true }
      status := { statusW with pauseConditions := [⟨PauseReasonInconclusiveAnalysis, 7⟩] } }
    [] []

/-- A context with only the inconclusive-analysis pause condition active. -/
def ctxInconclusive : RolloutCtx :=
  mkCtx
    { spec := specCanaryW
      status := { statusW with pauseConditions := [⟨PauseReasonInconclusiveAnalysis, 7⟩] } }
    [] []

/-- A context with no pause reason active. -/
def ctxNoPause : RolloutCtx :=
  mkCtx { spec := specCanaryW, status := statusW } [] []

/-- A running analysis run. -/
def arX : AnalysisRun := { name := "guestbook-6-bg", status := { phase := "Running", message := "" } }

/-- A canary context whose delete-candidate set already holds `arX`. -/
def ctxC3 : RolloutCtx :=
  mkCtx { spec := specCanaryW, status := statusW } [arX] []

/-- A current-run set selecting `arX` in the canary background slot. -/
def curC3 : CurrentAnalysisRuns :=
  { canaryBackground := some arX
    canaryStep := none
    blueGreenPrePromotion := none
    blueGreenPostPromotion := none }

/-- An all-nil current-run set. -/
def curNone : CurrentAnalysisRuns :=
  { canaryBackground := none
    canaryStep := none
    blueGreenPrePromotion := none
    blueGreenPostPromotion := none }

/-- A sample experiment. -/
def expA : Experiment := { name := "guestbook-exp-1" }

/-- A context whose delete-candidate experiment set holds `expA`. -/
def ctxC6 : RolloutCtx :=
  mkCtx { spec := specCanaryW, status := statusW } [] [expA]

/-- A Reconciler whose pause check succeeds and whose scaling-event detection
answers true, with the spec-modelled Scaling Synchronizer. -/
def reconW : Reconciler :=
  { checkPausedConditions := fun c => .ok c
    isScalingEvent := fun c => .ok (true, c)
    syncReplicasOnly := specSyncReplicasOnly 3
    rolloutBlueGreen := fun c => .ok c
    rolloutCanary := fun c => .ok c }

/-- Revision history of the rollback documentation's scenario: revisions
2, 3, 4, 5, where revision 4 carries a historical abort marker. -/
def histB : List RevisionInfo :=
  [⟨2, true, false⟩, ⟨3, true, false⟩, ⟨4, true, true⟩, ⟨5, true, false⟩]

/-- A store world in which every operation succeeds. -/
def kwOk : KubeWorld :=
  { createPatchResult := fun _ => .ok "patchbytes"
    patchResult := fun _ => .ok rsW
    informerResult := fun _ => .ok () }

/-- A store world in which the patch request fails with a conflict. -/
def kwErr : KubeWorld :=
  { createPatchResult := fun _ => .ok "patchbytes"
    patchResult := fun _ => .error "conflict"
    informerResult := fun _ => .ok () }

/-- An initial store-interaction state: no calls made, empty cache. -/
def st0 : KubeState := { patchCalls := 0, informerCalls := 0, cache := none }

/-! Theorems. -/

/-- C2: `haltProgress` resolves halt reasons in the fixed precedence order
{user-pause, inconclusive-analysis}: it answers "user paused" whenever the
user pause flag is set (regardless of any inconclusive-analysis pause
condition), "inconclusive analysis" when only the inconclusive-analysis pause
condition is active, and the empty string when neither holds. -/
theorem haltProgress_precedence (c : RolloutCtx) :
    (c.rollout.spec.paused = true → (haltProgress c).1 = "user paused")
    ∧ (c.rollout.spec.paused = false →
        (getPauseCondition c.rollout PauseReasonInconclusiveAnalysis).isSome = true →
        (haltProgress c).1 = "inconclusive analysis")
    ∧ (c.rollout.spec.paused = false →
        getPauseCondition c.rollout PauseReasonInconclusiveAnalysis = none →
        (haltProgress c).1 = "") := by
  refine ⟨fun h => ?_, fun h h2 => ?_, fun h h2 => ?_⟩ <;>
    simp [haltProgress, h]
  · simp [h2]
  · simp [h2]

/-- Witness for C2: in a context that is user-paused while the
inconclusive-analysis condition is also active, the answer is "user paused";
with only the inconclusive condition it is "inconclusive analysis"; with
neither it is empty. -/
theorem haltProgress_precedence_witness :
    (haltProgress ctxUserPaused).1 = "user paused"
    ∧ (haltProgress ctxInconclusive).1 = "inconclusive analysis"
    ∧ (haltProgress ctxNoPause).1 = "" :=
  ⟨(haltProgress_precedence ctxUserPaused).1 rfl,
   (haltProgress_precedence ctxInconclusive).2.1 rfl (by decide),
   (haltProgress_precedence ctxNoPause).2.2 rfl (by decide)⟩

/-- C7: `haltProgress` is a pure query: it returns the context unchanged —
rollout, working status, pause conditions and every replica-set, analysis and
experiment set included — and a repeated call on the returned context gives
the same answer. -/
theorem haltProgress_pure (c : RolloutCtx) :
    (haltProgress c).2 = c
    ∧ (haltProgress ((haltProgress c).2)).1 = (haltProgress c).1 := by
  have h2 : (haltProgress c).2 = c := by
    unfold haltProgress
    split
    · rfl
    · split
      · rfl
      · rfl
  exact ⟨h2, by rw [h2]⟩

/-- C3 counterexample: `SetCurrentAnalysisRuns` performs no rescue.  In a
canary context whose delete-candidate set already holds `arX`, selecting
`arX` as the current background run leaves it in the delete-candidate set. -/
theorem SetCurrentAnalysisRuns_no_rescue :
    curC3.canaryBackground = some arX
    ∧ arX ∈ (SetCurrentAnalysisRuns ctxC3 curC3).otherArs := by
  constructor
  · rfl
  · show arX ∈ [arX]
    simp

/-- C3 (amended): `SetCurrentAnalysisRuns` records the supplied current-run
set and projects verdicts into status, but never modifies the "other"
delete-candidate analysis-run set: a current run already present there stays
there; the identity-match rescue exists only for experiments. -/
theorem SetCurrentAnalysisRuns_other_unchanged (c : RolloutCtx) (cur : CurrentAnalysisRuns) :
    (SetCurrentAnalysisRuns c cur).otherArs = c.otherArs
    ∧ (SetCurrentAnalysisRuns c cur).currentArs = cur := by
  unfold SetCurrentAnalysisRuns
  by_cases hc : c.rollout.spec.strategyCanary <;>
    by_cases hb : c.rollout.spec.strategyBlueGreen <;>
      simp [hc, hb]

/-- C10: `SetCurrentAnalysisRuns` never clears previously written analysis
status: a nil trigger-kind slot leaves the corresponding status sub-field at
its prior value, and when neither the canary nor the blue-green strategy is
configured the whole working status is untouched while the supplied
current-run set is still recorded. -/
theorem SetCurrentAnalysisRuns_preserves (c : RolloutCtx) (cur : CurrentAnalysisRuns) :
    (SetCurrentAnalysisRuns c cur).currentArs = cur
    ∧ (cur.canaryBackground = none →
        (SetCurrentAnalysisRuns c cur).newStatus.canary.currentBackgroundAnalysisRunStatus
          = c.newStatus.canary.currentBackgroundAnalysisRunStatus)
    ∧ (cur.canaryStep = none →
        (SetCurrentAnalysisRuns c cur).newStatus.canary.currentStepAnalysisRunStatus
          = c.newStatus.canary.currentStepAnalysisRunStatus)
    ∧ (cur.blueGreenPrePromotion = none →
        (SetCurrentAnalysisRuns c cur).newStatus.blueGreen.prePromotionAnalysisRunStatus
          = c.newStatus.blueGreen.prePromotionAnalysisRunStatus)
    ∧ (cur.blueGreenPostPromotion = none →
        (SetCurrentAnalysisRuns c cur).newStatus.blueGreen.postPromotionAnalysisRunStatus
          = c.newStatus.blueGreen.postPromotionAnalysisRunStatus)
    ∧ (c.rollout.spec.strategyCanary = false → c.rollout.spec.strategyBlueGreen = false →
        (SetCurrentAnalysisRuns c cur).newStatus = c.newStatus) := by
  obtain ⟨cb, cs, pre, post⟩ := cur
  unfold SetCurrentAnalysisRuns
  by_cases hc : c.rollout.spec.strategyCanary <;>
    by_cases hb : c.rollout.spec.strategyBlueGreen <;>
      cases cb <;> cases cs <;> cases pre <;> cases post <;>
        simp [hc, hb]

/-- Witness for C10: with an all-nil current-run set on a canary context the
set is recorded and the background status sub-field keeps its prior value. -/
theorem SetCurrentAnalysisRuns_preserves_witness :
    (SetCurrentAnalysisRuns ctxNoPause curNone).currentArs = curNone
    ∧ (SetCurrentAnalysisRuns ctxNoPause curNone).newStatus.canary.currentBackgroundAnalysisRunStatus
        = ctxNoPause.newStatus.canary.currentBackgroundAnalysisRunStatus :=
  ⟨(SetCurrentAnalysisRuns_preserves ctxNoPause curNone).1,
   (SetCurrentAnalysisRuns_preserves ctxNoPause curNone).2.1 rfl⟩

/-- Helper for C6: after removing the first entry with name `n` from a list
whose names are pairwise distinct, no entry with name `n` remains. -/
lemma removeFirstByName_not_mem (n : String) (l : List Experiment)
    (h : (l.map Experiment.name).Nodup) :
    ∀ e ∈ removeFirstByName n l, e.name ≠ n := by
  induction l with
  | nil => intro e he; simp [removeFirstByName] at he
  | cons a rest ih =>
    intro e he
    simp only [List.map_cons, List.nodup_cons] at h
    unfold removeFirstByName at he
    by_cases ha : a.name = n
    · simp only [ha, if_true] at he
      intro hen
      exact h.1 (by
        subst ha
        rw [← hen]
        exact List.mem_map_of_mem Experiment.name he)
    · simp only [ha, if_false] at he
      rcases List.mem_cons.mp he with rfl | he2
      · exact ha
      · exact ih h.2 e he2

/-- C6: `SetCurrentExperiment` records the experiment as current, surfaces
its name in status, and — when delete-candidate names are pairwise distinct —
rescues any same-named experiment from the delete-candidate set, so no delete
candidate with that identity remains. -/
theorem SetCurrentExperiment_rescues (c : RolloutCtx) (ex : Experiment)
    (h : (c.otherExs.map Experiment.name).Nodup) :
    (SetCurrentExperiment c ex).currentEx = some ex
    ∧ (SetCurrentExperiment c ex).newStatus.canary.currentExperiment = ex.name
    ∧ ∀ e ∈ (SetCurrentExperiment c ex).otherExs, e.name ≠ ex.name :=
  ⟨rfl, rfl, removeFirstByName_not_mem ex.name c.otherExs h⟩

/-- Witness for C6: rescuing `expA` out of a singleton delete-candidate set. -/
theorem SetCurrentExperiment_rescues_witness :
    (SetCurrentExperiment ctxC6 expA).currentEx = some expA
    ∧ (SetCurrentExperiment ctxC6 expA).newStatus.canary.currentExperiment = expA.name
    ∧ ∀ e ∈ (SetCurrentExperiment ctxC6 expA).otherExs, e.name ≠ expA.name :=
  SetCurrentExperiment_rescues ctxC6 expA (by decide)

/-- Helper: a single-entry-if-present map has no key other than the copied
one. -/
lemma presentEntry_ne_none {m : StrMap} {k0 k : String}
    (h : presentEntry m k0 k ≠ none) : k = k0 := by
  unfold presentEntry StrMap.insert StrMap.empty at h
  by_cases hk : k = k0
  · exact hk
  · exfalso
    rcases hm : m k0 with _ | v <;> simp [hm, hk] at h

/-- Helper: a key present after the prefix-copying loop either matches the
predicate or was already present in the destination. -/
lemma copyMatched_ne_none {pred : String → Bool} {src dst : StrMap} {k : String}
    (h : copyMatched pred src dst k ≠ none) : pred k = true ∨ dst k ≠ none := by
  unfold copyMatched at h
  by_cases hp : pred k
  · exact Or.inl hp
  · right
    rcases hs : src k with _ | v <;> simp [hs, hp] at h <;> exact h

/-- Helper: the annotation map of the base patch, unfolded. -/
lemma basePatch_annots (rs : ReplicaSet) :
    (generateBasePatch rs).annots
      = copyMatched isControllerKey rs.annots
          (presentEntry rs.annots DefaultReplicaSetScaleDownDeadlineKey) := rfl

/-- Helper: the label map of the base patch, unfolded. -/
lemma basePatch_labels (rs : ReplicaSet) :
    (generateBasePatch rs).labels
      = copyMatched isControllerKey rs.labels
          (presentEntry rs.labels DefaultRolloutUniqueLabelKey) := rfl

/-- C4 (amended): every key of a generated patch — base patch or final-status
patch — is matched by one of the fixed controller-owned prefixes, or is the
unique-template-hash selector/label key, or is the well-known final-status
annotation key, or is the scale-down-deadline annotation key; besides those
keys the patch carries only the replica count and the template
labels/annotations (its remaining object-meta fields are zero-valued). -/
theorem patch_key_whitelist (rs : ReplicaSet) (s k : String) :
    ((generateBasePatch rs).annots k ≠ none →
      isControllerKey k = true ∨ k = DefaultReplicaSetScaleDownDeadlineKey)
    ∧ ((generateBasePatch rs).labels k ≠ none →
      isControllerKey k = true ∨ k = DefaultRolloutUniqueLabelKey)
    ∧ ((generateBasePatch rs).selectorMatchLabels k ≠ none →
      k = DefaultRolloutUniqueLabelKey)
    ∧ ((generateRSFinalStatusPatch rs s).annots k ≠ none →
      isControllerKey k = true ∨ k = DefaultReplicaSetScaleDownDeadlineKey
        ∨ k = ReplicaSetFinalStatusKey)
    ∧ ((generateRSFinalStatusPatch rs s).labels k ≠ none →
      isControllerKey k = true ∨ k = DefaultRolloutUniqueLabelKey)
    ∧ ((generateRSFinalStatusPatch rs s).selectorMatchLabels k ≠ none →
      k = DefaultRolloutUniqueLabelKey)
    ∧ (generateBasePatch rs).replicas = rs.replicas
    ∧ (generateBasePatch rs).templateLabels = rs.templateLabels
    ∧ (generateBasePatch rs).templateAnnots = rs.templateAnnots
    ∧ (generateBasePatch rs).name = ""
    ∧ (generateBasePatch rs).nsName = "" := by
  have hann : (generateBasePatch rs).annots k ≠ none →
      isControllerKey k = true ∨ k = DefaultReplicaSetScaleDownDeadlineKey := by
    intro h
    rw [basePatch_annots] at h
    rcases copyMatched_ne_none h with hp | hd
    · exact Or.inl hp
    · exact Or.inr (presentEntry_ne_none hd)
  have hlab : (generateBasePatch rs).labels k ≠ none →
      isControllerKey k = true ∨ k = DefaultRolloutUniqueLabelKey := by
    intro h
    rw [basePatch_labels] at h
    rcases copyMatched_ne_none h with hp | hd
    · exact Or.inl hp
    · exact Or.inr (presentEntry_ne_none hd)
  have hsel : (generateBasePatch rs).selectorMatchLabels k ≠ none →
      k = DefaultRolloutUniqueLabelKey := fun h => presentEntry_ne_none h
  refine ⟨hann, hlab, hsel, ?_, hlab, hsel, rfl, rfl, rfl, rfl, rfl⟩
  intro h
  by_cases hk : k = ReplicaSetFinalStatusKey
  · exact Or.inr (Or.inr hk)
  · have hb : (generateBasePatch rs).annots k ≠ none := by
      have : (generateRSFinalStatusPatch rs s).annots k = (generateBasePatch rs).annots k := by
        show StrMap.insert _ _ _ k = _
        unfold StrMap.insert
        rw [if_neg hk]
      rw [this] at h
      exact h
    rcases hann hb with hp | hd
    · exact Or.inl hp
    · exact Or.inr (Or.inl hd)

/-- Witness for C4 (amended): on a ReplicaSet whose only annotation is the
scale-down-deadline entry, the amended whitelist admits the one key the base
patch carries. -/
theorem patch_key_whitelist_witness :
    isControllerKey DefaultReplicaSetScaleDownDeadlineKey = true
      ∨ DefaultReplicaSetScaleDownDeadlineKey = DefaultReplicaSetScaleDownDeadlineKey :=
  (patch_key_whitelist rsC4 "promoted" DefaultReplicaSetScaleDownDeadlineKey).1 (by decide)

/-- C4 counterexample: the claim's whitelist (controller-owned prefixes, the
unique-template-hash key, the final-status key) does not cover the generated
patch: the scale-down-deadline annotation is copied into the base patch yet
matches none of the three. -/
theorem patch_key_whitelist_counterexample :
    (generateBasePatch rsC4).annots DefaultReplicaSetScaleDownDeadlineKey = some "2025-01-01"
    ∧ isControllerKey DefaultReplicaSetScaleDownDeadlineKey = false
    ∧ DefaultReplicaSetScaleDownDeadlineKey ≠ DefaultRolloutUniqueLabelKey
    ∧ DefaultReplicaSetScaleDownDeadlineKey ≠ ReplicaSetFinalStatusKey := by
  refine ⟨?_, by decide, by decide, by decide⟩
  decide

/-- C5: `generateRSFinalStatusPatch s` is the base patch of the new
ReplicaSet with the single well-known final-status annotation mapped to the
caller-supplied string unmodified; at every other annotation key, and in
every other field, it agrees with the base patch. -/
theorem finalStatusPatch_adds_single_key (rs : ReplicaSet) (s : String) :
    (generateRSFinalStatusPatch rs s).annots ReplicaSetFinalStatusKey = some s
    ∧ (∀ k, k ≠ ReplicaSetFinalStatusKey →
        (generateRSFinalStatusPatch rs s).annots k = (generateBasePatch rs).annots k)
    ∧ (generateRSFinalStatusPatch rs s).labels = (generateBasePatch rs).labels
    ∧ (generateRSFinalStatusPatch rs s).selectorMatchLabels
        = (generateBasePatch rs).selectorMatchLabels
    ∧ (generateRSFinalStatusPatch rs s).replicas = (generateBasePatch rs).replicas
    ∧ (generateRSFinalStatusPatch rs s).templateLabels = (generateBasePatch rs).templateLabels
    ∧ (generateRSFinalStatusPatch rs s).templateAnnots = (generateBasePatch rs).templateAnnots
    ∧ (generateRSFinalStatusPatch rs s).name = (generateBasePatch rs).name
    ∧ (generateRSFinalStatusPatch rs s).nsName = (generateBasePatch rs).nsName := by
  refine ⟨?_, fun k hk => ?_, rfl, rfl, rfl, rfl, rfl, rfl, rfl⟩
  · simp [generateRSFinalStatusPatch, StrMap.insert]
  · simp [generateRSFinalStatusPatch, StrMap.insert, hk]

/-- Witness for C5: the final-status patch of a plain ReplicaSet maps the
final-status key to the supplied string. -/
theorem finalStatusPatch_adds_single_key_witness :
    (generateRSFinalStatusPatch rsW "promoted").annots ReplicaSetFinalStatusKey
      = some "promoted" :=
  (finalStatusPatch_adds_single_key rsW "promoted").1

/-- C1: when the paused-condition check succeeds and the scaling-event
detection answers true, `reconcile` returns the Scaling Synchronizer's result
directly; the result does not depend on the strategy branches (so neither
`rolloutBlueGreen` nor `rolloutCanary` is invoked); and since the Scaling
Synchronizer only rewrites replica counts, working status — pause conditions,
analysis sub-status and step index included — rollout, and all
analysis/experiment sets are unchanged. -/
theorem reconcile_scaling_shortcircuit (R : Reconciler) (d : Int) (c c1 c2 : RolloutCtx)
    (hp : R.checkPausedConditions c = .ok c1)
    (hs : R.isScalingEvent c1 = .ok (true, c2))
    (hsync : R.syncReplicasOnly = specSyncReplicasOnly d) :
    reconcile R c = specSyncReplicasOnly d c2
    ∧ (∀ bg can : RolloutCtx → Except String RolloutCtx,
        reconcile { R with rolloutBlueGreen := bg, rolloutCanary := can } c
          = specSyncReplicasOnly d c2)
    ∧ ∀ c3, specSyncReplicasOnly d c2 = .ok c3 →
        c3.newStatus = c2.newStatus
        ∧ c3.rollout = c2.rollout
        ∧ c3.currentArs = c2.currentArs
        ∧ c3.otherArs = c2.otherArs
        ∧ c3.currentEx = c2.currentEx
        ∧ c3.otherExs = c2.otherExs := by
  refine ⟨?_, fun bg can => ?_, fun c3 h3 => ?_⟩
  · simp [reconcile, hp, hs, hsync]
  · simp [reconcile, hp, hs, hsync]
  · have hc3 : c3 = { c2 with newRS := c2.newRS.map (fun rs => { rs with replicas := some d }) } := by
      unfold specSyncReplicasOnly at h3
      injection h3 with h
      exact h.symm
    subst hc3
    exact ⟨rfl, rfl, rfl, rfl, rfl, rfl⟩

/-- Witness for C1: with a Reconciler whose pause check succeeds and whose
detection answers true on a concrete context, `reconcile` equals the Scaling
Synchronizer's output there. -/
theorem reconcile_scaling_shortcircuit_witness :
    reconcile reconW ctxNoPause = specSyncReplicasOnly 3 ctxNoPause :=
  (reconcile_scaling_shortcircuit reconW 3 ctxNoPause ctxNoPause ctxNoPause rfl rfl rfl).1

/-- C8: fast-track eligibility holds exactly when the static distance from
the current revision to the target lies in `1..N`, the target's ReplicaSet
still exists, and it carries no abort marker; on the documented history
2, 3, 4 (aborted), 5 (current) with window 3, revision 4 is ineligible while
revision 3 is eligible, and with window 2 the excluded revision 4 does not
widen the window to make revision 2 eligible. -/
theorem rollback_window_eligibility (hist : List RevisionInfo) (current window target : Int) :
    (rollbackEligible hist current window target = true
      ↔ 1 ≤ current - target ∧ current - target ≤ window
          ∧ ∃ ri ∈ hist, ri.revision = target ∧ ri.present = true ∧ ri.aborted = false)
    ∧ rollbackEligible histB 5 3 4 = false
    ∧ rollbackEligible histB 5 3 3 = true
    ∧ rollbackEligible histB 5 2 2 = false := by
  refine ⟨?_, by decide, by decide, by decide⟩
  unfold rollbackEligible
  simp only [Bool.and_eq_true, decide_eq_true_eq, List.any_eq_true, beq_iff_eq,
    Bool.not_eq_eq_eq_not, Bool.not_true, and_assoc]

/-- C9: `setFinalRSStatus` returns every failure — patch creation, the store
patch request, or the informer cache update — wrapped with the new
ReplicaSet's name; it performs at most one store patch call and at most one
informer update (no retry); and on success the informer cache holds exactly
the object the store returned. -/
theorem setFinalRSStatus_contract (w : KubeWorld) (rs : ReplicaSet) (s : String)
    (st : KubeState) :
    (∀ e, (setFinalRSStatus w rs s st).1 = .error e → e.rsName = rs.name)
    ∧ (setFinalRSStatus w rs s st).2.patchCalls ≤ st.patchCalls + 1
    ∧ (setFinalRSStatus w rs s st).2.informerCalls ≤ st.informerCalls + 1
    ∧ ((setFinalRSStatus w rs s st).1 = .ok () →
        ∃ u, w.patchResult st.patchCalls = .ok u
          ∧ (setFinalRSStatus w rs s st).2.cache = some u) := by
  unfold setFinalRSStatus
  rcases hcp : w.createPatchResult (generateRSFinalStatusPatch rs s) with e | p
  · simp [hcp, FinalRSError.rsName]
  · rcases hpr : w.patchResult st.patchCalls with e | u
    · simp [hcp, hpr, FinalRSError.rsName]
    · rcases hir : w.informerResult st.informerCalls with e | x
      · simp [hcp, hpr, hir, FinalRSError.rsName]
      · simp [hcp, hpr, hir, FinalRSError.rsName]

/-- Witness for C9: a failing store patch yields an error carrying the
ReplicaSet name, and in the all-success world the cache ends up holding the
store's returned object. -/
theorem setFinalRSStatus_contract_witness :
    FinalRSError.rsName (.errPatching rsW.name "conflict") = rsW.name
    ∧ ∃ u, kwOk.patchResult 0 = .ok u
        ∧ (setFinalRSStatus kwOk rsW "promoted" st0).2.cache = some u :=
  ⟨(setFinalRSStatus_contract kwErr rsW "promoted" st0).1
      (.errPatching rsW.name "conflict") rfl,
   (setFinalRSStatus_contract kwOk rsW "promoted" st0).2.2.2 rfl⟩

end ArgoRollouts
